import Mathlib

/-!
Shallow embedding of the attribute-validation and rendering core of the
`webfront` library (files `src/webfront/html/attributes.py`,
`src/webfront/html/elements.py`, `src/webfront/html/page.py`), together with
theorems settling the specification claims about it.

Python strings are modelled as Lean `String`; the Python string operations
used by the code (`str.strip`, `str.split`, `str.lower`, membership of `"/"`)
are embedded below restricted to ASCII, which covers every value the code's
validators can accept (all token patterns are ASCII-only).
-/

namespace Webfront

/-- The whitespace characters recognised by Python `str.strip` / `str.split`
(ASCII subset): space, tab, newline, carriage return, vertical tab, form feed. -/
def pyIsSpace (c : Char) : Bool :=
  c == ' ' || c == '\t' || c == '\n' || c == '\r' || c == '\x0b' || c == '\x0c'

/-- `str.strip()` on the underlying character list. -/
def stripChars (l : List Char) : List Char :=
  ((l.dropWhile pyIsSpace).reverse.dropWhile pyIsSpace).reverse

/-- Python `value.strip()`. -/
def pyStrip (s : String) : String :=
  ⟨stripChars s.data⟩

/-- Python `value.lower()` (ASCII case mapping, which is all the validators need). -/
def pyLower (s : String) : String :=
  ⟨s.data.map Char.toLower⟩

/-- Helper for `value.split()` with no argument: accumulates the current token
(in reverse) and splits on runs of whitespace, producing no empty tokens. -/
def splitWsAux : List Char → List Char → List (List Char)
  | [], cur => if cur = [] then [] else [cur.reverse]
  | c :: cs, cur =>
    if pyIsSpace c then
      if cur = [] then splitWsAux cs []
      else cur.reverse :: splitWsAux cs []
    else splitWsAux cs (c :: cur)

/-- Python `value.split()`: split on whitespace runs, discarding empty fields. -/
def pySplitWhitespace (s : String) : List String :=
  (splitWsAux s.data []).map (fun l => ⟨l⟩)

/-- Helper for `value.split(sep)` with a one-character separator: keeps empty
fields, exactly like Python. -/
def splitSepAux (sep : Char) : List Char → List Char → List (List Char)
  | [], cur => [cur.reverse]
  | c :: cs, cur =>
    if c == sep then cur.reverse :: splitSepAux sep cs []
    else splitSepAux sep cs (c :: cur)

/-- Python `value.split(sep)` for a one-character separator. -/
def pySplitChar (s : String) (sep : Char) : List String :=
  (splitSepAux sep s.data []).map (fun l => ⟨l⟩)

/-- Python `value.split(sep, 1)` for a one-character separator, returning
`none` when the separator does not occur (i.e. `sep not in value`). -/
def splitFirst (sep : Char) : List Char → Option (List Char × List Char)
  | [] => none
  | c :: cs =>
    if c == sep then some ([], cs)
    else (splitFirst sep cs).map (fun p => (c :: p.1, p.2))

/-- Embeds `len(set(l)) != len(l)` on a list of strings: some element occurs twice. -/
def hasDup : List String → Bool
  | [] => false
  | x :: xs => xs.contains x || hasDup xs

/-- The two error kinds of the attribute layer: `ValueError` (a validation
failure of the supplied value) and `RuntimeError` (the IANA registry is
unavailable and the caller asked for strict validation).  The Python errors
carry diagnostic messages, which the embedding elides. -/
inductive Err where
  | invalidValue
  | registryUnavailable
  deriving DecidableEq

/-! ## Lang (attributes.py lines 27–60) -/

/-- Whether a subtag is acceptable at its position: the first subtag is a
primary-language subtag of 2–3 ASCII letters, later subtags are nonempty
alphanumeric ASCII of length at most 8.  Part of the spec-modelled BCP-47
handling, see `bcp47Canonical`. -/
def subtagOk (isFirst : Bool) (l : List Char) : Bool :=
  if isFirst then
    decide (2 ≤ l.length) && decide (l.length ≤ 3) && l.all Char.isAlpha
  else
    !l.isEmpty && decide (l.length ≤ 8) && l.all Char.isAlphanum

/-- Canonical BCP-47 casing of one subtag: the primary language is
lower-cased, a 2-letter alphabetic subtag (region) is upper-cased, a 4-letter
alphabetic subtag (script) is title-cased, anything else is lower-cased. -/
def canonSubtag (isFirst : Bool) (l : List Char) : List Char :=
  if isFirst then l.map Char.toLower
  else if decide (l.length = 2) && l.all Char.isAlpha then l.map Char.toUpper
  else if decide (l.length = 4) && l.all Char.isAlpha then
    match l with
    | [] => []
    | c :: cs => Char.toUpper c :: cs.map Char.toLower
  else l.map Char.toLower

/-- Modelled from the spec: the external `langcodes` library (not part of this
repository) that `Lang.__init__` delegates to via
`langcodes.Language.get(value).to_tag()`.  Per the spec, a non-empty value must
be a valid BCP-47 tag — '-'-separated subtags, the first a primary language —
and on success the tag is re-rendered with standard canonical casing
("e.g. `fr-ca` → `fr-CA`"); otherwise `LanguageTagError` is raised, modelled
as `none`. -/
def bcp47Canonical (value : String) : Option String :=
  match pySplitChar value '-' with
  | [] => none
  | first :: rest =>
    if subtagOk true first.data && rest.all (fun t => subtagOk false t.data) then
      some (String.intercalate "-"
        (⟨canonSubtag true first.data⟩ ::
          rest.map (fun t => (⟨canonSubtag false t.data⟩ : String))))
    else none

/-- A validated `lang` attribute value (class `Lang`). -/
structure Lang where
  value : String
  deriving DecidableEq

/-- Embeds `Lang.__init__` (attributes.py 47–57): the empty string is accepted
as-is; otherwise the tag is parsed and canonicalised by `langcodes`
(`bcp47Canonical`), and a parse failure raises `ValueError`. -/
def Lang.init (value : String) : Except Err Lang :=
  if value = "" then .ok ⟨value⟩
  else
    match bcp47Canonical value with
    | some tag => .ok ⟨tag⟩
    | none => .error .invalidValue

/-- Embeds `Lang.render`. -/
def Lang.render (l : Lang) : String :=
  "lang=\"" ++ l.value ++ "\""

/-! ## Dir (attributes.py 64–73) -/

/-- The closed value set of the `Literal["ltr", "rtl", "auto"]` annotation on
`Dir.__init__`. -/
def dirAllowed : List String := ["ltr", "rtl", "auto"]

/-- A validated `dir` attribute value (class `Dir`). -/
structure Dir where
  value : String
  deriving DecidableEq

/-- Embeds `Dir.__init__` (attributes.py 69–70): the `typechecked` decorator
enforces the `Literal` annotation at the construction boundary, modelled as a
membership check in `dirAllowed`; an accepted value is stored unchanged. -/
def Dir.init (value : String) : Except Err Dir :=
  if dirAllowed.contains value then .ok ⟨value⟩ else .error .invalidValue

/-- Embeds `Dir.render`. -/
def Dir.render (d : Dir) : String :=
  "dir=\"" ++ d.value ++ "\""

/-! ## Rel (attributes.py 111–135) -/

/-- A validated `rel` attribute value (class `Rel`). -/
structure Rel where
  value : String
  deriving DecidableEq

/-- Embeds `Rel.__init__` (attributes.py 121–132): strip; reject empty; split
on whitespace; lower-case each token; reject case-insensitive duplicates
(`len(set(lowered)) != len(lowered)`, embedded as `hasDup`); store the lowered
tokens joined with single spaces. -/
def Rel.init (value : String) : Except Err Rel :=
  let v := pyStrip value
  if v = "" then .error .invalidValue
  else
    let lowered := (pySplitWhitespace v).map pyLower
    if hasDup lowered then .error .invalidValue
    else .ok ⟨String.intercalate " " lowered⟩

/-- Embeds `Rel.render`. -/
def Rel.render (r : Rel) : String :=
  "rel=\"" ++ r.value ++ "\""

/-! ## Sizes (attributes.py 297–324) -/

/-- `[1-9][0-9]*` on a character list: a positive integer with no leading zero. -/
def posIntChars : List Char → Bool
  | [] => false
  | c :: cs => ('1' ≤ c && c ≤ '9') && cs.all (fun d => '0' ≤ d && d ≤ '9')

/-- Embeds `Sizes._SIZE_RE.fullmatch`, the regex `^[1-9][0-9]*x[1-9][0-9]*$`:
split at the first `x`; both sides must be positive integers without leading
zeros (neither side may contain a further `x`, which `posIntChars` rules out). -/
def sizeTokenOk (s : String) : Bool :=
  match splitFirst 'x' s.data with
  | some (l, r) => posIntChars l && posIntChars r
  | none => false

/-- A validated `sizes` attribute value (class `Sizes`). -/
structure Sizes where
  value : String
  deriving DecidableEq

/-- Embeds `Sizes.__init__` (attributes.py 307–321): strip; reject empty; the
literal `any` (case-insensitive) is stored as `"any"`; otherwise every
whitespace-separated token must match the size regex (the Python loop raises at
the first failing token; the embedding's `all` check rejects in exactly the
same cases) and the tokens are rejoined with single spaces. -/
def Sizes.init (value : String) : Except Err Sizes :=
  let v := pyStrip value
  if v = "" then .error .invalidValue
  else if pyLower v = "any" then .ok ⟨"any"⟩
  else
    let tokens := pySplitWhitespace v
    if tokens.all sizeTokenOk then .ok ⟨String.intercalate " " tokens⟩
    else .error .invalidValue

/-- Embeds `Sizes.render`. -/
def Sizes.render (s : Sizes) : String :=
  "sizes=\"" ++ s.value ++ "\""

/-! ## Type (attributes.py 156–293) — named `MediaType` here because `Type`
is a Lean keyword -/

/-- Embeds `Type._FALLBACK_KNOWN`, the hard-coded fallback allow-list used
when the IANA registry is unavailable and `strict_registry` is false. -/
def fallbackKnown : List String :=
  ["image/png", "image/jpeg", "image/gif", "image/webp", "image/avif",
   "image/svg+xml", "image/x-icon", "text/css", "text/javascript",
   "application/javascript", "application/json", "application/wasm",
   "font/woff", "font/woff2"]

/-- The character class of `Type._TOKEN_RE`, i.e. `[A-Za-z0-9!#$&^_.+-]`. -/
def tokenChar (c : Char) : Bool :=
  c.isAlpha || c.isDigit ||
    ['!', '#', '$', '&', '^', '_', '.', '+', '-'].contains c

/-- Embeds `Type._TOKEN_RE.fullmatch`, the regex `^[A-Za-z0-9!#$&^_.+-]+$`. -/
def tokenOk (s : String) : Bool :=
  !s.data.isEmpty && s.data.all tokenChar

/-- A validated `type` attribute value (class `Type`). -/
structure MediaType where
  value : String
  deriving DecidableEq

/-- Embeds the parsing stage of `Type.__init__` (attributes.py 250–265):
strip and reject empty; split on `;` stripping each piece, the first being the
main part and the rest the parameters; require a `/` in the main part; split
at the first `/` and strip to obtain `t` and `sub`; reject if either is empty
or fails the token regex.  Returns `(t, sub, params)`. -/
def parseMediaType (value : String) : Except Err (String × String × List String) :=
  let v := pyStrip value
  if v = "" then .error .invalidValue
  else
    match (pySplitChar v ';').map pyStrip with
    | [] => .error .invalidValue
    | main :: params =>
      match splitFirst '/' main.data with
      | none => .error .invalidValue
      | some (tl, sl) =>
        let t := pyStrip ⟨tl⟩
        let sub := pyStrip ⟨sl⟩
        if t = "" || sub = "" then .error .invalidValue
        else if !(tokenOk t && tokenOk sub) then .error .invalidValue
        else .ok (t, sub, params)

/-- Embeds `Type.__init__` (attributes.py 249–290).  `registry` is the result
of `Type._try_load_iana_mime_types()` (the set of registry media types, or
`none` when the registry is unavailable) and `strict` is the `strict_registry`
flag.  After parsing, the lower-cased `t/sub` candidate is checked against the
registry when available (`ValueError` if absent); with no registry,
`strict_registry=True` raises `RuntimeError`, otherwise the candidate must be
in the fallback allow-list.  The stored value is the candidate followed by the
trimmed parameters re-joined with `"; "` when any are present. -/
def mediaTypeInit (value : String) (strict : Bool) (registry : Option (List String)) :
    Except Err MediaType :=
  match parseMediaType value with
  | .error e => .error e
  | .ok (t, sub, params) =>
    let candidate := pyLower t ++ "/" ++ pyLower sub
    let check : Except Err Unit :=
      match registry with
      | some reg =>
        if reg.contains candidate then .ok () else .error .invalidValue
      | none =>
        if strict then .error .registryUnavailable
        else if fallbackKnown.contains candidate then .ok ()
        else .error .invalidValue
    match check with
    | .error e => .error e
    | .ok _ =>
      if params.isEmpty then .ok ⟨candidate⟩
      else .ok ⟨candidate ++ "; " ++ String.intercalate "; " params⟩

/-- Embeds `Type.render`. -/
def MediaType.render (m : MediaType) : String :=
  "type=\"" ++ m.value ++ "\""

/-! ## The IANA registry cache (attributes.py 185–247) -/

/-- The class-level cache state of `Type`: `_iana_mime_types` and
`_iana_failed` (attributes.py 186–187). -/
structure RegistryState where
  ianaMimeTypes : Option (List String)
  ianaFailed : Bool
  deriving DecidableEq

/-- The cache state at process start: nothing fetched, no failure recorded. -/
def registryStart : RegistryState := ⟨none, false⟩

/-- The outcome of the external fetch-and-parse (attributes.py 206–240):
`failure` covers any exception during download or XML parsing; `success`
carries the parsed set of lower-cased `category/subtype` strings. -/
inductive FetchOutcome where
  | failure
  | success (mimeTypes : List String)
  deriving DecidableEq

/-- What one call to `_try_load_iana_mime_types` produces: the updated cache
state, the value returned to the caller, and whether this call performed the
external fetch. -/
structure LoadResult where
  state : RegistryState
  result : Option (List String)
  fetched : Bool
  deriving DecidableEq

/-- Embeds `Type._try_load_iana_mime_types` (attributes.py 193–247).  The lock
serialises callers, so the function is modelled as a sequential state
transition; the double-checked fast path and the locked path collapse into one
check of each field.  A populated cache is returned as-is; a recorded failure
returns `None`; otherwise the fetch runs: an exception sets `_iana_failed`, a
parse yielding no media types also sets `_iana_failed`, and a non-empty parse
populates `_iana_mime_types`. -/
def tryLoadIanaMimeTypes (st : RegistryState) (fetch : FetchOutcome) : LoadResult :=
  match st.ianaMimeTypes with
  | some m => ⟨st, some m, false⟩
  | none =>
    if st.ianaFailed then ⟨st, none, false⟩
    else
      match fetch with
      | .failure => ⟨⟨none, true⟩, none, true⟩
      | .success mimeTypes =>
        if mimeTypes.isEmpty then ⟨⟨none, true⟩, none, true⟩
        else ⟨⟨some mimeTypes, false⟩, some mimeTypes, true⟩

/-- A sequence of calls to `_try_load_iana_mime_types` threaded through the
cache state, returning the final state and how many calls performed the
external fetch. -/
def runLoads (st : RegistryState) : List FetchOutcome → RegistryState × Nat
  | [] => (st, 0)
  | f :: fs =>
    let r := tryLoadIanaMimeTypes st f
    let rest := runLoads r.state fs
    (rest.1, (if r.fetched then 1 else 0) + rest.2)

/-! ## Elements (elements.py) and Page (page.py) -/

/-- The element node kinds of `elements.py` needed by the claims: `DocType`
(45–48), `HTML` (52–65), `Head` (69–72), `Body` (76–78), `Title` (82–87).
`HTML.__init__` stores `children` (via the `ContainerElement` base), then
`lang`, then `dir`, so its instance dictionary holds the attribute slots in
the order `lang`, `dir`. -/
inductive Element where
  | docType
  | html (lang : Option Lang) (dir : Option Dir) (children : List Element)
  | head (children : List Element)
  | body (children : List Element)
  | title (value : String)

/-- Embeds `AttributedElement.render_attributes` (elements.py 22–32): collect
the renderings of the attribute slots that hold a value (absent slots, i.e.
`None` fields, are not `Attribute` instances and contribute nothing); return
`""` when none are present, otherwise a space followed by the renderings
joined with single spaces. -/
def renderAttributes (slots : List (Option String)) : String :=
  let rendered := slots.filterMap id
  if rendered.isEmpty then "" else " " ++ String.intercalate " " rendered

mutual

/-- Embeds the `render` methods of `elements.py`: `DocType.render` returns the
doctype marker, `HTML.render` wraps its attributes and children in
`<html...>...</html>`, and similarly for the other kinds. -/
def Element.render : Element → String
  | .docType => "<!DOCTYPE html>"
  | .html lang dir children =>
    "<html" ++ renderAttributes [lang.map Lang.render, dir.map Dir.render] ++ ">"
      ++ renderElements children ++ "</html>"
  | .head children => "<head>" ++ renderElements children ++ "</head>"
  | .body children => "<body>" ++ renderElements children ++ "</body>"
  | .title value => "<title>" ++ value ++ "</title>"

/-- Embeds `ContainerElement.render_children` (elements.py 40–41): the
children's renderings concatenated in order with no separator. -/
def renderElements : List Element → String
  | [] => ""
  | e :: es => e.render ++ renderElements es

end

/-- Embeds `Page` (page.py 8–17): a `Page` holds `[DocType(), html_element]`
and renders as the concatenation of their renderings. -/
structure Page where
  htmlElement : Element

/-- Embeds `Page.render`. -/
def Page.render (p : Page) : String :=
  renderElements [Element.docType, p.htmlElement]

/-! ## Helper lemmas -/

/-- A string all of whose characters are Python whitespace strips to the empty
string. -/
theorem pyStrip_eq_empty {v : String} (h : v.data.all pyIsSpace = true) :
    pyStrip v = "" := by
  unfold pyStrip stripChars
  have h1 : v.data.dropWhile pyIsSpace = [] := by
    rw [List.dropWhile_eq_nil_iff]
    intro x hx
    exact List.all_eq_true.mp h x hx
  rw [h1]
  rfl

/-- A parse failure in `Type.__init__` makes the whole construction fail with
the same error, whatever the registry state. -/
theorem mediaTypeInit_parse_error {v : String} {e : Err} (strict : Bool)
    (reg : Option (List String)) (hp : parseMediaType v = .error e) :
    mediaTypeInit v strict reg = .error e := by
  unfold mediaTypeInit
  rw [hp]

/-- With a live registry containing the lower-cased candidate, a
parameter-free construction succeeds and stores exactly the candidate. -/
theorem mediaTypeInit_registry_hit {v t sub : String}
    {reg : List String} (strict : Bool)
    (hp : parseMediaType v = .ok (t, sub, []))
    (hm : (pyLower t ++ "/" ++ pyLower sub) ∈ reg) :
    mediaTypeInit v strict (some reg) = .ok ⟨pyLower t ++ "/" ++ pyLower sub⟩ := by
  unfold mediaTypeInit
  rw [hp]
  simp [hm]

/-- With a live registry not containing the lower-cased candidate,
construction fails with `ValueError`. -/
theorem mediaTypeInit_registry_miss {v t sub : String} {params : List String}
    {reg : List String} (strict : Bool)
    (hp : parseMediaType v = .ok (t, sub, params))
    (hm : (pyLower t ++ "/" ++ pyLower sub) ∉ reg) :
    mediaTypeInit v strict (some reg) = .error .invalidValue := by
  unfold mediaTypeInit
  rw [hp]
  simp [hm]

/-- A successful parse has checked both tokens nonempty and against the token
regex. -/
theorem parseMediaType_tokens {v t sub : String} {params : List String}
    (h : parseMediaType v = .ok (t, sub, params)) :
    t ≠ "" ∧ sub ≠ "" ∧ tokenOk t = true ∧ tokenOk sub = true := by
  simp only [parseMediaType] at h
  split at h
  · simp at h
  · split at h
    · simp at h
    · split at h
      · simp at h
      · split at h
        · simp at h
        · split at h
          · simp at h
          · rename_i hne htok
            simp only [Except.ok.injEq, Prod.mk.injEq] at h
            obtain ⟨ht, hsub, -⟩ := h
            subst ht; subst hsub
            simp only [Bool.or_eq_true, decide_eq_true_eq, not_or] at hne
            simp only [Bool.not_eq_true', Bool.not_eq_false, Bool.and_eq_true] at htok
            exact ⟨hne.1, hne.2, htok.1, htok.2⟩

/-- Characterisation of every successful `Type` construction: the parse
succeeded, the lower-cased candidate is in the set in force (the registry when
available, the fallback allow-list otherwise), and the stored value is the
candidate followed by the parameters re-joined with `"; "` when present. -/
theorem mediaTypeInit_ok_facts {v : String} {strict : Bool}
    {reg : Option (List String)} {m : MediaType}
    (h : mediaTypeInit v strict reg = .ok m) :
    ∃ t sub params, parseMediaType v = .ok (t, sub, params) ∧
      (pyLower t ++ "/" ++ pyLower sub) ∈ reg.getD fallbackKnown ∧
      m.value = (if params.isEmpty then pyLower t ++ "/" ++ pyLower sub
        else pyLower t ++ "/" ++ pyLower sub ++ "; " ++ String.intercalate "; " params) := by
  unfold mediaTypeInit at h
  cases hp : parseMediaType v with
  | error e => rw [hp] at h; simp at h
  | ok x =>
    obtain ⟨t, sub, params⟩ := x
    rw [hp] at h
    refine ⟨t, sub, params, rfl, ?_⟩
    cases reg with
    | some r =>
      simp only [Option.getD_some]
      by_cases hm : (pyLower t ++ "/" ++ pyLower sub) ∈ r
      · refine ⟨hm, ?_⟩
        rcases params with _ | ⟨p, ps⟩ <;> (simp [hm] at h; subst h; rfl)
      · simp [hm] at h
    | none =>
      cases strict with
      | true => simp at h
      | false =>
        simp only [Option.getD_none]
        by_cases hm : (pyLower t ++ "/" ++ pyLower sub) ∈ fallbackKnown
        · refine ⟨hm, ?_⟩
          rcases params with _ | ⟨p, ps⟩ <;> (simp [hm] at h; subst h; rfl)
        · simp [hm] at h

/-- A settled cache state (populated, or with the failure flag set) is
returned unchanged and triggers no fetch. -/
theorem tryLoad_settled (st : RegistryState) (f : FetchOutcome)
    (h : st.ianaMimeTypes ≠ none ∨ st.ianaFailed = true) :
    tryLoadIanaMimeTypes st f = ⟨st, st.ianaMimeTypes, false⟩ := by
  obtain ⟨mt, failed⟩ := st
  cases mt with
  | some m => rfl
  | none =>
    rcases h with h | h
    · simp at h
    · subst h
      rfl

/-- From a settled cache state, any sequence of calls leaves the state
unchanged and performs zero fetches. -/
theorem runLoads_settled (st : RegistryState)
    (h : st.ianaMimeTypes ≠ none ∨ st.ianaFailed = true) :
    ∀ fs, runLoads st fs = (st, 0) := by
  intro fs
  induction fs with
  | nil => rfl
  | cons f fs ih =>
    unfold runLoads
    rw [tryLoad_settled st f h]
    simpa using ih

/-- One call from the fresh process-start state settles the cache, whatever
the fetch outcome. -/
theorem tryLoad_fresh_settled (f : FetchOutcome) :
    (tryLoadIanaMimeTypes registryStart f).state.ianaMimeTypes ≠ none ∨
    (tryLoadIanaMimeTypes registryStart f).state.ianaFailed = true := by
  cases f with
  | failure => right; rfl
  | success l =>
    cases l with
    | nil => right; rfl
    | cons x xs => left; simp [tryLoadIanaMimeTypes, registryStart]

/-! ## Claims -/

/-- Claim C1: `MediaType` construction accepts `"image/png"` under both the
fallback set and any live registry containing it, rendering exactly
`type="image/png"`; it rejects `"image"` (no `/`) and
`"image/zzzz-not-a-real-type"` (absent from the fallback set and from any
registry not listing it) with `InvalidValue`; and in general every accepted
input splits into a non-empty type and subtype matching the restricted token
pattern whose lower-cased `type/subtype` is a member of the set in force
(registry when available, fallback otherwise). -/
theorem mediaType_validation_C1 :
    (mediaTypeInit "image/png" false none = .ok ⟨"image/png"⟩) ∧
    (MediaType.render ⟨"image/png"⟩ = "type=\"image/png\"") ∧
    (∀ reg : List String, "image/png" ∈ reg →
      ∀ strict, mediaTypeInit "image/png" strict (some reg) = .ok ⟨"image/png"⟩) ∧
    (∀ strict reg, mediaTypeInit "image" strict reg = .error .invalidValue) ∧
    (mediaTypeInit "image/zzzz-not-a-real-type" false none = .error .invalidValue) ∧
    (∀ reg : List String, "image/zzzz-not-a-real-type" ∉ reg →
      ∀ strict, mediaTypeInit "image/zzzz-not-a-real-type" strict (some reg) =
        .error .invalidValue) ∧
    (∀ v strict reg m, mediaTypeInit v strict reg = .ok m →
      ∃ t sub params, parseMediaType v = .ok (t, sub, params) ∧
        t ≠ "" ∧ sub ≠ "" ∧ tokenOk t = true ∧ tokenOk sub = true ∧
        (pyLower t ++ "/" ++ pyLower sub) ∈ reg.getD fallbackKnown) := by
  refine ⟨rfl, rfl, ?_, ?_, rfl, ?_, ?_⟩
  · intro reg hm strict
    exact @mediaTypeInit_registry_hit "image/png" "image" "png" reg strict rfl hm
  · intro strict reg
    exact mediaTypeInit_parse_error strict reg rfl
  · intro reg hm strict
    exact @mediaTypeInit_registry_miss "image/zzzz-not-a-real-type" "image"
      "zzzz-not-a-real-type" [] reg strict rfl hm
  · intro v strict reg m h
    obtain ⟨t, sub, params, hp, hmem, -⟩ := mediaTypeInit_ok_facts h
    have tk := parseMediaType_tokens hp
    exact ⟨t, sub, params, hp, tk.1, tk.2.1, tk.2.2.1, tk.2.2.2, hmem⟩

/-- Witness for C1 at concrete inputs: a singleton registry containing
`image/png` accepts it even in strict mode, rejects the unknown type, and the
success characterisation holds at `image/png` under the fallback set. -/
theorem mediaType_validation_C1_witness :
    (mediaTypeInit "image/png" true (some ["image/png"]) = .ok ⟨"image/png"⟩) ∧
    (mediaTypeInit "image/zzzz-not-a-real-type" true (some ["image/png"]) =
      .error .invalidValue) ∧
    (∃ t sub params, parseMediaType "image/png" = .ok (t, sub, params) ∧
      t ≠ "" ∧ sub ≠ "" ∧ tokenOk t = true ∧ tokenOk sub = true ∧
      (pyLower t ++ "/" ++ pyLower sub) ∈
        (none : Option (List String)).getD fallbackKnown) :=
  ⟨mediaType_validation_C1.2.2.1 ["image/png"] (by decide) true,
   mediaType_validation_C1.2.2.2.2.2.1 ["image/png"] (by decide) true,
   mediaType_validation_C1.2.2.2.2.2.2 "image/png" false none ⟨"image/png"⟩ rfl⟩

/-- Claim C2: with the registry unavailable, a (parseable) candidate under
`strict_registry=True` fails with `RegistryUnavailable`, an error kind
distinct from `InvalidValue`; under `strict_registry=False` a candidate
outside the fallback allow-list fails with `InvalidValue`. -/
theorem mediaType_registry_unavailable_C2 :
    (∀ v t sub params, parseMediaType v = .ok (t, sub, params) →
      mediaTypeInit v true none = .error .registryUnavailable) ∧
    (∀ v t sub params, parseMediaType v = .ok (t, sub, params) →
      (pyLower t ++ "/" ++ pyLower sub) ∉ fallbackKnown →
      mediaTypeInit v false none = .error .invalidValue) ∧
    (Err.registryUnavailable ≠ Err.invalidValue) := by
  refine ⟨?_, ?_, by simp⟩
  · intro v t sub params hp
    unfold mediaTypeInit
    rw [hp]
    rfl
  · intro v t sub params hp hm
    unfold mediaTypeInit
    rw [hp]
    simp [hm]

/-- Witness for C2 at concrete inputs: `image/png` in strict mode with the
registry unavailable, and the unknown type in fallback mode. -/
theorem mediaType_registry_unavailable_C2_witness :
    (mediaTypeInit "image/png" true none = .error .registryUnavailable) ∧
    (mediaTypeInit "image/zzzz-not-a-real-type" false none = .error .invalidValue) :=
  ⟨mediaType_registry_unavailable_C2.1 "image/png" "image" "png" [] rfl,
   mediaType_registry_unavailable_C2.2.1 "image/zzzz-not-a-real-type" "image"
     "zzzz-not-a-real-type" [] rfl (by decide)⟩

/-- Claim C8: every accepted `MediaType` stores the lower-cased
`type/subtype`, followed — only when parameters are present — by `"; "` and
the trimmed parameters joined with `"; "`; rendering wraps exactly that value
in `type="..."` with nothing added.  This holds in particular for inputs
ending in a `;` separator such as `"image/png;"`, whose (single, empty)
trimmed parameter yields the stored value `"image/png; "`. -/
theorem mediaType_normalized_value_C8 :
    (∀ v strict reg m, mediaTypeInit v strict reg = .ok m →
      ∃ t sub params, parseMediaType v = .ok (t, sub, params) ∧
        m.value = (if params.isEmpty then pyLower t ++ "/" ++ pyLower sub
          else pyLower t ++ "/" ++ pyLower sub ++ "; " ++ String.intercalate "; " params)) ∧
    (∀ m : MediaType, m.render = "type=\"" ++ m.value ++ "\"") ∧
    (parseMediaType "image/png;" = .ok ("image", "png", [""])) ∧
    (mediaTypeInit "image/png;" false none = .ok ⟨"image/png; "⟩) := by
  refine ⟨?_, fun m => rfl, rfl, rfl⟩
  intro v strict reg m h
  obtain ⟨t, sub, params, hp, -, hval⟩ := mediaTypeInit_ok_facts h
  exact ⟨t, sub, params, hp, hval⟩

/-- Witness for C8 at the concrete input `"image/png;"`. -/
theorem mediaType_normalized_value_C8_witness :
    ∃ t sub params, parseMediaType "image/png;" = .ok (t, sub, params) ∧
      (⟨"image/png; "⟩ : MediaType).value =
        (if params.isEmpty then pyLower t ++ "/" ++ pyLower sub
          else pyLower t ++ "/" ++ pyLower sub ++ "; " ++ String.intercalate "; " params) :=
  mediaType_normalized_value_C8.1 "image/png;" false none ⟨"image/png; "⟩ rfl

/-- Claim C3: the registry fetch happens at most once per process lifetime —
a settled cache state (populated or failed) answers every later call without
fetching and unchanged; a failed fetch permanently records the failure, and
every subsequent call returns the unavailable outcome with no retry; a fetch
that succeeds with zero media types is likewise recorded as a permanent
failure; and over any sequence of calls from process start at most one call
performs the external fetch. -/
theorem registry_fetch_once_C3 :
    (∀ st f, (st.ianaMimeTypes ≠ none ∨ st.ianaFailed = true) →
      tryLoadIanaMimeTypes st f = ⟨st, st.ianaMimeTypes, false⟩) ∧
    (tryLoadIanaMimeTypes registryStart .failure = ⟨⟨none, true⟩, none, true⟩) ∧
    (∀ f, tryLoadIanaMimeTypes ⟨none, true⟩ f = ⟨⟨none, true⟩, none, false⟩) ∧
    (tryLoadIanaMimeTypes registryStart (.success []) = ⟨⟨none, true⟩, none, true⟩) ∧
    (∀ fs, (runLoads registryStart fs).2 ≤ 1) := by
  refine ⟨tryLoad_settled, rfl, fun f => tryLoad_settled ⟨none, true⟩ f (Or.inr rfl),
    rfl, ?_⟩
  intro fs
  cases fs with
  | nil => simp [runLoads]
  | cons f fs =>
    have h1 := runLoads_settled _ (tryLoad_fresh_settled f) fs
    simp only [runLoads, h1]
    split <;> simp

/-- Witness for C3: a populated cache state answers a further call (here with
a failing fetch outcome) unchanged and without fetching. -/
theorem registry_fetch_once_C3_witness :
    tryLoadIanaMimeTypes ⟨some ["image/png"], false⟩ .failure =
      ⟨⟨some ["image/png"], false⟩, some ["image/png"], false⟩ :=
  registry_fetch_once_C3.1 ⟨some ["image/png"], false⟩ .failure (Or.inl (by simp))

/-- Claim C4: the HTML root with `lang=Lang("en")`, `dir=Dir("ltr")` and empty
children renders exactly `<html lang="en" dir="ltr"></html>`; with no
attributes supplied it renders exactly `<html></html>` (absent slots
contribute nothing); and the `Page` of a `DocType` marker plus that root
renders exactly `<!DOCTYPE html><html lang="en" dir="ltr"></html>`. -/
theorem html_page_render_C4 :
    (Lang.init "en" = .ok ⟨"en"⟩) ∧
    (Dir.init "ltr" = .ok ⟨"ltr"⟩) ∧
    (Element.render (.html (some ⟨"en"⟩) (some ⟨"ltr"⟩) []) =
      "<html lang=\"en\" dir=\"ltr\"></html>") ∧
    (Element.render (.html none none []) = "<html></html>") ∧
    (Page.render ⟨.html (some ⟨"en"⟩) (some ⟨"ltr"⟩) []⟩ =
      "<!DOCTYPE html><html lang=\"en\" dir=\"ltr\"></html>") :=
  ⟨rfl, rfl, rfl, rfl, rfl⟩

/-- Claim C5: `Rel` rejects the empty string; splits on whitespace and
lower-cases tokens; rejects case-insensitive duplicates (so `"ICON Icon"`
fails); and on success stores the lower-cased tokens rejoined with single
spaces in order, so `"icon preload"` succeeds and renders
`rel="icon preload"`. -/
theorem relList_validation_C5 :
    (Rel.init "" = .error .invalidValue) ∧
    (Rel.init "ICON Icon" = .error .invalidValue) ∧
    (Rel.init "icon preload" = .ok ⟨"icon preload"⟩) ∧
    (Rel.render ⟨"icon preload"⟩ = "rel=\"icon preload\"") ∧
    (∀ v, hasDup ((pySplitWhitespace (pyStrip v)).map pyLower) = true →
      Rel.init v = .error .invalidValue) ∧
    (∀ v r, Rel.init v = .ok r →
      r.value = String.intercalate " " ((pySplitWhitespace (pyStrip v)).map pyLower)) := by
  refine ⟨rfl, rfl, rfl, rfl, ?_, ?_⟩
  · intro v h
    simp only [Rel.init]
    split
    · rfl
    · simp [h]
  · intro v r h
    simp only [Rel.init] at h
    split at h
    · simp at h
    · split at h
      · simp at h
      · obtain rfl := Except.ok.inj h
        rfl

/-- Witness for C5: the duplicate check fires on `"ICON Icon"` and the stored
value of `"icon preload"` is the lower-cased space-rejoined token list. -/
theorem relList_validation_C5_witness :
    (Rel.init "ICON Icon" = .error .invalidValue) ∧
    ((⟨"icon preload"⟩ : Rel).value =
      String.intercalate " " ((pySplitWhitespace (pyStrip "icon preload")).map pyLower)) :=
  ⟨relList_validation_C5.2.2.2.2.1 "ICON Icon" rfl,
   relList_validation_C5.2.2.2.2.2 "icon preload" ⟨"icon preload"⟩ rfl⟩

/-- Claim C6: `Sizes` rejects the empty string; the literal `any`
(case-insensitively, as the entire trimmed input) is accepted and normalised
to `"any"`; otherwise every whitespace-separated token must match
`[1-9][0-9]*x[1-9][0-9]*` and any non-matching token (e.g. in `"0x10"`,
`"32X32"`, `"32x"`, `"any any"`) makes construction fail with `InvalidValue`,
while `"32x32 64x64"` renders unchanged. -/
theorem sizeList_validation_C6 :
    (Sizes.init "" = .error .invalidValue) ∧
    (Sizes.init "32x32 64x64" = .ok ⟨"32x32 64x64"⟩) ∧
    (Sizes.render ⟨"32x32 64x64"⟩ = "sizes=\"32x32 64x64\"") ∧
    (Sizes.init "0x10" = .error .invalidValue) ∧
    (Sizes.init "32X32" = .error .invalidValue) ∧
    (Sizes.init "32x" = .error .invalidValue) ∧
    (Sizes.init "any" = .ok ⟨"any"⟩) ∧
    (Sizes.init "ANY" = .ok ⟨"any"⟩) ∧
    (Sizes.init "any any" = .error .invalidValue) ∧
    (∀ v tok, pyLower (pyStrip v) ≠ "any" →
      tok ∈ pySplitWhitespace (pyStrip v) → sizeTokenOk tok = false →
      Sizes.init v = .error .invalidValue) := by
  refine ⟨rfl, rfl, rfl, rfl, rfl, rfl, rfl, rfl, rfl, ?_⟩
  intro v tok hany hmem hbad
  have hall : (pySplitWhitespace (pyStrip v)).all sizeTokenOk = false := by
    rcases Bool.eq_false_or_eq_true ((pySplitWhitespace (pyStrip v)).all sizeTokenOk) with
      hb | hb
    · have hc := List.all_eq_true.mp hb tok hmem
      rw [hbad] at hc
      exact Bool.noConfusion hc
    · exact hb
  simp only [Sizes.init]
  split
  · rfl
  · simp [hall]

/-- Witness for C6: the general rejection applies to the bad token `"32x"`. -/
theorem sizeList_validation_C6_witness :
    Sizes.init "32x" = .error .invalidValue :=
  sizeList_validation_C6.2.2.2.2.2.2.2.2.2 "32x" "32x" (by decide) (by decide) rfl

/-- Claim C7: `Lang` accepts the empty string and renders `lang=""`; a
non-empty value recognised as BCP-47 is stored in canonically-cased form
(`"fr-ca"` renders `lang="fr-CA"`); and every non-empty value not recognised
as BCP-47 (e.g. `"english"`) is rejected with `InvalidValue`.  BCP-47
recognition and canonicalisation live in the external `langcodes` library and
are spec-modelled by `bcp47Canonical`. -/
theorem languageTag_validation_C7 :
    (Lang.init "" = .ok ⟨""⟩) ∧
    (Lang.render ⟨""⟩ = "lang=\"\"") ∧
    (Lang.init "fr-ca" = .ok ⟨"fr-CA"⟩) ∧
    (Lang.render ⟨"fr-CA"⟩ = "lang=\"fr-CA\"") ∧
    (Lang.init "english" = .error .invalidValue) ∧
    (∀ v tag, bcp47Canonical v = some tag → Lang.init v = .ok ⟨tag⟩ ∨ v = "") ∧
    (∀ v, v ≠ "" → bcp47Canonical v = none → Lang.init v = .error .invalidValue) := by
  refine ⟨rfl, rfl, rfl, rfl, rfl, ?_, ?_⟩
  · intro v tag h
    by_cases hv : v = ""
    · exact Or.inr hv
    · exact Or.inl (by simp [Lang.init, hv, h])
  · intro v hv h
    simp [Lang.init, hv, h]

/-- Witness for C7: canonicalisation at `"fr-ca"` and rejection at
`"english"`. -/
theorem languageTag_validation_C7_witness :
    (Lang.init "fr-ca" = .ok ⟨"fr-CA"⟩ ∨ "fr-ca" = "") ∧
    (Lang.init "english" = .error .invalidValue) :=
  ⟨languageTag_validation_C7.2.2.2.2.2.1 "fr-ca" "fr-CA" rfl,
   languageTag_validation_C7.2.2.2.2.2.2 "english" (by decide) rfl⟩

/-- Claim C9: `Dir` construction succeeds exactly on the closed set
`{ltr, rtl, auto}` — each member is accepted and stored unchanged, every
string outside the set is rejected at the construction boundary — and an
accepted value renders `dir="<value>"` unchanged. -/
theorem direction_validation_C9 :
    (Dir.init "ltr" = .ok ⟨"ltr"⟩) ∧
    (Dir.init "rtl" = .ok ⟨"rtl"⟩) ∧
    (Dir.init "auto" = .ok ⟨"auto"⟩) ∧
    (∀ v, v ∉ dirAllowed → Dir.init v = .error .invalidValue) ∧
    (∀ v d, Dir.init v = .ok d → d.value = v ∧ v ∈ dirAllowed) ∧
    (∀ d : Dir, d.render = "dir=\"" ++ d.value ++ "\"") := by
  refine ⟨rfl, rfl, rfl, ?_, ?_, fun d => rfl⟩
  · intro v hv
    simp [Dir.init, hv]
  · intro v d h
    simp only [Dir.init] at h
    split at h
    · rename_i hc
      obtain rfl := Except.ok.inj h
      exact ⟨rfl, by simpa using hc⟩
    · simp at h

/-- Witness for C9: rejection of a value outside the closed set, and the
characterisation of the accepted value `"ltr"`. -/
theorem direction_validation_C9_witness :
    (Dir.init "sideways" = .error .invalidValue) ∧
    ((⟨"ltr"⟩ : Dir).value = "ltr" ∧ "ltr" ∈ dirAllowed) :=
  ⟨direction_validation_C9.2.2.2.1 "sideways" (by decide),
   direction_validation_C9.2.2.2.2.1 "ltr" ⟨"ltr"⟩ rfl⟩

/-- Claim C10 (implicit): `Rel`, `Sizes` and `Type` strip the raw input before
validating, so an all-whitespace string is rejected with `InvalidValue`
exactly like the empty string; and accepted multi-token `Rel`/`Sizes` inputs
separated by tabs or runs of spaces are stored (and rendered) as the tokens
rejoined with single spaces. -/
theorem strip_and_rejoin_C10 :
    (∀ v, v.data.all pyIsSpace = true →
      Rel.init v = .error .invalidValue ∧
      Sizes.init v = .error .invalidValue ∧
      (∀ strict reg, mediaTypeInit v strict reg = .error .invalidValue)) ∧
    (Rel.init "" = .error .invalidValue) ∧
    (Sizes.init "" = .error .invalidValue) ∧
    (∀ strict reg, mediaTypeInit "" strict reg = .error .invalidValue) ∧
    (Rel.init "\ticon \t preload" = .ok ⟨"icon preload"⟩) ∧
    (Sizes.init " 32x32\t\t64x64 " = .ok ⟨"32x32 64x64"⟩) ∧
    (mediaTypeInit "  image/png " false none = .ok ⟨"image/png"⟩) := by
  refine ⟨?_, rfl, rfl, fun strict reg => mediaTypeInit_parse_error strict reg rfl,
    rfl, rfl, rfl⟩
  intro v h
  have hs : pyStrip v = "" := pyStrip_eq_empty h
  refine ⟨?_, ?_, fun strict reg => mediaTypeInit_parse_error strict reg ?_⟩
  · simp [Rel.init, hs]
  · simp [Sizes.init, hs]
  · simp [parseMediaType, hs]

/-- Witness for C10: the string `" \t "` consists of whitespace only and all
three constructors reject it. -/
theorem strip_and_rejoin_C10_witness :
    Rel.init " \t " = .error .invalidValue ∧
    Sizes.init " \t " = .error .invalidValue ∧
    (∀ strict reg, mediaTypeInit " \t " strict reg = .error .invalidValue) :=
  strip_and_rejoin_C10.1 " \t " (by decide)

end Webfront
